import Mathlib

/-!
Shallow embedding of the train-traffic control backend (src/backend.py).

Python dictionaries are modelled as association lists in insertion order
(Python dicts iterate in insertion order); positions, speeds and timestamps
are modelled as rationals (the source uses floats, but every claim under
scrutiny concerns order comparisons and exact small arithmetic); the several
calls to time.time() inside one loop iteration are abstracted by a single
tick timestamp `now`.
-/

set_option allowUnsafeReducibility true

attribute [semireducible] Rat.add Rat.sub Rat.mul Rat.inv Rat.div

namespace Backend

inductive SigState where
  | GREEN
  | RED
  deriving DecidableEq, Repr

/-- Train record: source line 23 keys track, position, speed, status,
priority, last_update.  The optional `id` field models the extra "id" key
that `get_system_state` (source line 115) adds to the live train dicts;
it is absent (`none`) until that endpoint runs. -/
structure Train where
  track : Nat
  position : ℚ
  speed : ℚ
  status : String
  priority : Int
  lastUpdate : ℚ
  id : Option String := none
  deriving DecidableEq, Repr

/-- Signal record: source line 29. -/
structure Signal where
  track : Nat
  position : ℚ
  state : SigState
  deriving DecidableEq, Repr

/-- Junction record: source line 37 (the controlled_by list is never read by
the simulation loop, so it is omitted). -/
structure Junction where
  tracks : List Nat
  position : ℚ
  deriving DecidableEq, Repr

/-- Decision-log entry: source line 44. -/
structure LogEntry where
  timestamp : ℚ
  level : String
  message : String
  deriving DecidableEq, Repr

/-- KPI block: source line 15. -/
structure KPIs where
  punctuality : ℚ
  avg_delay : ℚ
  total_trains : ℚ
  delayed_trains : ℚ
  deriving DecidableEq, Repr

/-- World State: the system_state dict, source lines 9-16.  The `tracks`
field is the tracks.lengths table. -/
structure SystemState where
  trains : List (String × Train)
  signals : List (String × Signal)
  tracks : List (Nat × ℚ)
  junctions : List (String × Junction)
  aiLog : List LogEntry
  kpis : KPIs
  deriving DecidableEq, Repr

/-- log_ai_decision, source lines 43-47: insert the entry at index 0 and,
when the list then holds more than 100 entries, pop the last one. -/
def log_ai_decision (now : ℚ) (level message : String) (log : List LogEntry) :
    List LogEntry :=
  let log1 := { timestamp := now, level := level, message := message } :: log
  if 100 < log1.length then log1.dropLast else log1

/-- Track-length lookup, source line 67 (`system_state.tracks.lengths[track]`).
The source raises KeyError on an unknown track id; the track registry is
static, so this never happens, and the model totalises with 0. -/
def trackLen (lengths : List (Nat × ℚ)) (track : Nat) : ℚ :=
  (lengths.lookup track).getD 0

/-- Blocked-train scan, source lines 56-61: the first signal (in signal-dict
order) on the same track, strictly ahead, closer than 5 units and not GREEN;
`none` when the train is clear to proceed. -/
def findBlockingSignal (signals : List (String × Signal)) (t : Train) :
    Option String :=
  match signals with
  | [] => none
  | (sid, s) :: rest =>
    if s.track = t.track ∧ t.position < s.position ∧
        s.position - t.position < 5 ∧ s.state ≠ SigState.GREEN then
      some sid
    else
      findBlockingSignal rest t

/-- Loop body for one train, source lines 54-69: block or advance, refresh
last_update, then wrap with an INFO completion entry when the position has
reached the track length. -/
def advanceTrain (now : ℚ) (signals : List (String × Signal))
    (lengths : List (Nat × ℚ)) (tid : String) (t : Train)
    (log : List LogEntry) : Train × List LogEntry :=
  let t1 :=
    match findBlockingSignal signals t with
    | some sid => { t with status := "Waiting at signal " ++ sid }
    | none =>
      { t with position := t.position + t.speed * ((now - t.lastUpdate) / 3600),
               status := "On Time" }
  let t2 := { t1 with lastUpdate := now }
  if trackLen lengths t2.track ≤ t2.position then
    ({ t2 with position := 0 },
     log_ai_decision now "INFO"
       ("Train " ++ tid ++ " has completed its journey on track " ++
         toString (t2.track + 1) ++ ".") log)
  else
    (t2, log)

/-- Step 1 of the tick, source lines 53-69, over the whole train dict. -/
def advanceTrains (now : ℚ) (signals : List (String × Signal))
    (lengths : List (Nat × ℚ)) :
    List (String × Train) → List LogEntry →
      List (String × Train) × List LogEntry
  | [], log => ([], log)
  | (tid, t) :: rest, log =>
    let p := advanceTrain now signals lengths tid t log
    let q := advanceTrains now signals lengths rest p.2
    ((tid, p.1) :: q.1, q.2)

/-- First half of step 2, source lines 72-73: default every signal to RED. -/
def setAllRed (signals : List (String × Signal)) : List (String × Signal) :=
  signals.map (fun p => (p.1, { p.2 with state := SigState.RED }))

/-- Occupancy scan for one signal, source lines 76-81: the first train (in
train-dict order) on the same track whose position lies strictly between the
signal position and the signal position plus 20. -/
def findOccupyingTrain (trains : List (String × Train)) (s : Signal) :
    Option String :=
  match trains with
  | [] => none
  | (tid, t) :: rest =>
    if t.track = s.track ∧ s.position < t.position ∧
        t.position < s.position + 20 then
      some tid
    else
      findOccupyingTrain rest s

/-- Second half of step 2, source lines 74-83: keep an occupied signal RED
(logging an ACTION) and turn a clear one GREEN. -/
def decideSignals (now : ℚ) (trains : List (String × Train)) :
    List (String × Signal) → List LogEntry →
      List (String × Signal) × List LogEntry
  | [], log => ([], log)
  | (sid, s) :: rest, log =>
    match findOccupyingTrain trains s with
    | some tid =>
      let log1 := log_ai_decision now "ACTION"
        ("Path not clear for signal " ++ sid ++ ". Train " ++ tid ++
          " in block.") log
      let q := decideSignals now trains rest log1
      ((sid, s) :: q.1, q.2)
    | none =>
      let q := decideSignals now trains rest log
      ((sid, { s with state := SigState.GREEN }) :: q.1, q.2)

/-- Step 2 of the tick, source lines 71-83. -/
def step2 (now : ℚ) (trains : List (String × Train))
    (signals : List (String × Signal)) (log : List LogEntry) :
    List (String × Signal) × List LogEntry :=
  decideSignals now trains (setAllRed signals) log

/-- Proximity test of source line 88: the train is on one of the junction
tracks and within 25 units of the junction position. -/
def nearJunction (j : Junction) (t : Train) : Prop :=
  t.track ∈ j.tracks ∧ |t.position - j.position| < 25

instance (j : Junction) (t : Train) : Decidable (nearJunction j t) := by
  unfold nearJunction; infer_instance

/-- Contender collection of source lines 87-88, in train-dict order. -/
def trainsNear (j : Junction) (trains : List (String × Train)) :
    List (String × Train) :=
  trains.filter (fun p => decide (nearJunction j p.2))

/-- Stable insertion by non-decreasing priority. -/
def orderedInsertP (a : String × Train) :
    List (String × Train) → List (String × Train)
  | [] => [a]
  | b :: l =>
    if a.2.priority ≤ b.2.priority then a :: b :: l else b :: orderedInsertP a l

/-- The stable sort by priority of source line 90 (Python list.sort with a
priority key is stable, so equal priorities keep train-dict order). -/
def sortByPriority : List (String × Train) → List (String × Train)
  | [] => []
  | a :: l => orderedInsertP a (sortByPriority l)

/-- Arbitration winner of source line 91: head of the contenders sorted by
priority. -/
def junctionWinner (j : Junction) (trains : List (String × Train)) :
    Option (String × Train) :=
  (sortByPriority (trainsNear j trains)).head?

/-- Effect of one contender pass on one signal, source lines 94-96: a signal
on the contender track within 25 units of the junction is forced GREEN for
the winner and RED otherwise; any other signal is untouched. -/
def overrideSig (j : Junction) (winnerId contenderId : String)
    (contenderTrack : Nat) (s : Signal) : Signal :=
  if s.track = contenderTrack ∧ |s.position - j.position| < 25 then
    { s with state := if contenderId = winnerId then SigState.GREEN else SigState.RED }
  else
    s

/-- Inner signal loop of source lines 94-98 for one contender, also logging
an ACTION for every forced-RED signal. -/
def overrideForTrain (now : ℚ) (j : Junction) (winnerId contenderId : String)
    (contenderTrack : Nat) :
    List (String × Signal) → List LogEntry →
      List (String × Signal) × List LogEntry
  | [], log => ([], log)
  | (sid, s) :: rest, log =>
    if s.track = contenderTrack ∧ |s.position - j.position| < 25 then
      let log1 :=
        if contenderId = winnerId then log
        else
          log_ai_decision now "ACTION"
            ("Setting signal " ++ sid ++ " to RED for train " ++ contenderId ++ ".") log
      let q := overrideForTrain now j winnerId contenderId contenderTrack rest log1
      ((sid, overrideSig j winnerId contenderId contenderTrack s) :: q.1, q.2)
    else
      let q := overrideForTrain now j winnerId contenderId contenderTrack rest log
      ((sid, s) :: q.1, q.2)

/-- Outer contender loop of source lines 93-98. -/
def applyOverrides (now : ℚ) (j : Junction) (winnerId : String) :
    List (String × Train) → List (String × Signal) → List LogEntry →
      List (String × Signal) × List LogEntry
  | [], signals, log => (signals, log)
  | (tid, t) :: rest, signals, log =>
    let p := overrideForTrain now j winnerId tid t.track signals log
    applyOverrides now j winnerId rest p.1 p.2

/-- Step 3 of the tick, source lines 85-98, for the junction stored under key
J1 (the source reads exactly that key; with no junction the step is skipped).
The WARNING text hardcodes J1 exactly as the source f-string does. -/
def resolveJunction (now : ℚ) (trains : List (String × Train))
    (signals : List (String × Signal)) (oj : Option Junction)
    (log : List LogEntry) : List (String × Signal) × List LogEntry :=
  match oj with
  | none => (signals, log)
  | some j =>
    if 1 < (trainsNear j trains).length then
      match sortByPriority (trainsNear j trains) with
      | [] => (signals, log)
      | (winnerId, _w) :: _rest =>
        applyOverrides now j winnerId (sortByPriority (trainsNear j trains)) signals
          (log_ai_decision now "WARNING"
            ("Conflict near Junction J1. Prioritizing " ++ winnerId ++ ".") log)
    else
      (signals, log)

/-- One iteration of the loop body of ai_simulation_thread, source lines
52-98: train advancement, then signal recomputation, then junction conflict
resolution, all under the state lock. -/
def tick (now : ℚ) (st : SystemState) : SystemState :=
  let a := advanceTrains now st.signals st.tracks st.trains st.aiLog
  let b := step2 now a.1 st.signals a.2
  let c := resolveJunction now a.1 b.1 (st.junctions.lookup "J1") b.2
  { st with trains := a.1, signals := c.1, aiLog := c.2 }

/-- setup_initial_state, source lines 9-16 and 20-41, with every time.time()
call at startup abstracted by the timestamp t0. -/
def setup_initial_state (t0 : ℚ) : SystemState :=
  { trains :=
      [("T123", { track := 0, position := 10, speed := 80, status := "On Time",
                  priority := 1, lastUpdate := t0 }),
       ("T456", { track := 1, position := 40, speed := 70, status := "On Time",
                  priority := 2, lastUpdate := t0 }),
       ("T789", { track := 2, position := 80, speed := 90, status := "On Time",
                  priority := 1, lastUpdate := t0 }),
       ("T246", { track := 1, position := 95, speed := 85, status := "On Time",
                  priority := 3, lastUpdate := t0 })],
    signals :=
      [("S1", { track := 0, position := 25, state := SigState.GREEN }),
       ("S2", { track := 0, position := 75, state := SigState.GREEN }),
       ("S3", { track := 1, position := 25, state := SigState.GREEN }),
       ("S4", { track := 1, position := 75, state := SigState.GREEN }),
       ("S5", { track := 2, position := 25, state := SigState.GREEN }),
       ("S6", { track := 2, position := 75, state := SigState.GREEN })],
    tracks := [(0, 100), (1, 100), (2, 100)],
    junctions := [("J1", { tracks := [0, 1], position := 50 })],
    aiLog := [{ timestamp := t0, level := "INFO",
                message := "System initialized. AI engine is active." }],
    kpis := { punctuality := 991/10, avg_delay := 12/10,
              total_trains := 150, delayed_trains := 5 } }

/-- Snapshot document returned by the read-state endpoint, source
lines 107-112. -/
structure StateResponse where
  trains : List Train
  signals : List (String × Signal)
  logs : List LogEntry
  kpis : KPIs
  deriving DecidableEq, Repr

/-- get_system_state, source lines 102-116.  list(trains.values()) copies
the list but aliases the train records, and the loop on lines 113-115 writes
an id key into those shared records; the live World State therefore changes,
so the model returns the response together with the resulting state. -/
def get_system_state (since : ℚ) (st : SystemState) :
    StateResponse × SystemState :=
  let recent := st.aiLog.filter (fun e => decide (since < e.timestamp))
  let tagged := st.trains.map (fun p => (p.1, { p.2 with id := some p.1 }))
  ({ trains := tagged.map Prod.snd, signals := st.signals,
     logs := recent, kpis := st.kpis },
   { st with trains := tagged })

/-- Scenario request body, source lines 120-149: data.get returns None for a
missing field, modelled by Option; numeric fields are modelled as integers
(the messages concatenate them exactly as Python renders an int). -/
structure ScenarioRequest where
  event_type : Option String := none
  train_id : Option String := none
  delay : Option Int := none
  track_id : Option Int := none
  duration : Option Int := none
  deriving DecidableEq, Repr

/-- Scenario response document, source line 150. -/
structure ScenarioResponse where
  scenario : String
  plan : List String
  impact : String
  deriving DecidableEq, Repr

/-- Python rendering of a possibly missing string inside an f-string. -/
def showOptStr : Option String → String
  | none => "None"
  | some s => s

/-- Python rendering of a possibly missing integer inside an f-string. -/
def showOptInt : Option Int → String
  | none => "None"
  | some n => toString n

/-- simulate_scenario, source lines 118-150.  In the track_closure and
new_train branches the source evaluates track_id + 1; when track_id is None
that raises TypeError, modelled as Except.error; every other path returns
the templated document, with the unrecognized-event default of line 122. -/
def simulate_scenario (d : ScenarioRequest) : Except String ScenarioResponse :=
  if d.event_type = some "delay" then
    Except.ok
      { scenario := "Train " ++ showOptStr d.train_id ++ " is delayed by " ++
          showOptInt d.delay ++ " minutes.",
        plan :=
          ["Adjust signals for all crossing trains.",
           "Prioritize holding lower-priority trains if conflicting with " ++
             showOptStr d.train_id ++ ".",
           "Re-route " ++ showOptStr d.train_id ++ " if track becomes congested."],
        impact := "Minor cascading delays expected on 2-3 trains." }
  else if d.event_type = some "track_closure" then
    match d.track_id with
    | none => Except.error "TypeError: unsupported operand types for +: NoneType and int"
    | some tr =>
      Except.ok
        { scenario := "Track " ++ toString (tr + 1) ++ " closed for " ++
            showOptInt d.duration ++ " minutes.",
          plan :=
            ["Set all signals on Track " ++ toString (tr + 1) ++ " to RED.",
             "Re-route approaching trains via junctions.",
             "Hold trains currently on this track at nearest signal."],
          impact := "Significant delays expected on this track." }
  else if d.event_type = some "new_train" then
    match d.track_id with
    | none => Except.error "TypeError: unsupported operand types for +: NoneType and int"
    | some tr =>
      Except.ok
        { scenario := "Add unscheduled train " ++ showOptStr d.train_id ++
            " on Track " ++ toString (tr + 1) ++ ".",
          plan :=
            ["Analyze current traffic to find safe insertion window.",
             "Adjust signals to create gap for " ++ showOptStr d.train_id ++ ".",
             "Adjust schedule for 2-4 other trains on same track."],
          impact := "Minimal impact if traffic is light." }
  else
    Except.ok
      { scenario := "Unknown", plan := [], impact := "Analysis in progress..." }

/-- Signals within 25 units of the junction on a given track with a GREEN
state: the gating condition named by the junction-safety claim. -/
def gatedGreen (signals : List (String × Signal)) (j : Junction) (track : Nat) :
    Prop :=
  ∃ p ∈ signals, p.2.track = track ∧ |p.2.position - j.position| < 25 ∧
    p.2.state = SigState.GREEN

instance (signals : List (String × Signal)) (j : Junction) (track : Nat) :
    Decidable (gatedGreen signals j track) := by
  unfold gatedGreen; infer_instance

/-- Placeholder KPI block for the concrete example states below. -/
def kpis0 : KPIs :=
  { punctuality := 0, avg_delay := 0, total_trains := 0, delayed_trains := 0 }

/-- Concrete state for the position-97 scenario: track 0 of length 100, one
train at position 97 with speed 360 units per hour, last updated at time 0. -/
def stScenario97 : SystemState :=
  { trains := [("T1", { track := 0, position := 97, speed := 360,
                        status := "On Time", priority := 1, lastUpdate := 0 })],
    signals := [],
    tracks := [(0, 100)],
    junctions := [("J1", { tracks := [0, 1], position := 50 })],
    aiLog := [], kpis := kpis0 }

/-- Same scenario with the train at position 99.9, one tick from wrapping. -/
def stScenario999 : SystemState :=
  { stScenario97 with
    trains := [("T1", { track := 0, position := 999/10, speed := 360,
                        status := "On Time", priority := 1, lastUpdate := 0 })] }

/-- Two equal-priority trains near junction J1, inserted into the train dict
in the order T9 then T1: the lexically larger identifier comes first. -/
def stTie : SystemState :=
  { trains := [("T9", { track := 0, position := 40, speed := 0,
                        status := "On Time", priority := 1, lastUpdate := 0 }),
               ("T1", { track := 1, position := 60, speed := 0,
                        status := "On Time", priority := 1, lastUpdate := 0 })],
    signals := [],
    tracks := [(0, 100), (1, 100)],
    junctions := [("J1", { tracks := [0, 1], position := 50 })],
    aiLog := [], kpis := kpis0 }

/-- Winner and loser contending on the same track of junction J1, with a
signal on that track within the 25-unit radius. -/
def stSharedTrack : SystemState :=
  { trains := [("TA", { track := 0, position := 40, speed := 0,
                        status := "On Time", priority := 1, lastUpdate := 0 }),
               ("TB", { track := 0, position := 60, speed := 0,
                        status := "On Time", priority := 2, lastUpdate := 0 })],
    signals := [("S1", { track := 0, position := 45, state := SigState.GREEN })],
    tracks := [(0, 100)],
    junctions := [("J1", { tracks := [0, 1], position := 50 })],
    aiLog := [], kpis := kpis0 }

/-- Two trains on the two distinct tracks of junction J1, both within 25
units, each with a gating signal within 25 units on its own track. -/
def stCross : SystemState :=
  { trains := [("TA", { track := 0, position := 45, speed := 0,
                        status := "On Time", priority := 1, lastUpdate := 0 }),
               ("TB", { track := 1, position := 55, speed := 0,
                        status := "On Time", priority := 2, lastUpdate := 0 })],
    signals := [("S2", { track := 0, position := 40, state := SigState.GREEN }),
                ("S4", { track := 1, position := 60, state := SigState.GREEN })],
    tracks := [(0, 100), (1, 100)],
    junctions := [("J1", { tracks := [0, 1], position := 50 })],
    aiLog := [], kpis := kpis0 }

/-- One train standing exactly at a signal position (the boundary case of
the occupancy window). -/
def trBoundary : List (String × Train) :=
  [("T1", { track := 0, position := 25, speed := 0, status := "On Time",
            priority := 1, lastUpdate := 0 })]

/-- The signal whose position the train of trBoundary occupies exactly. -/
def sgBoundary : List (String × Signal) :=
  [("S1", { track := 0, position := 25, state := SigState.RED })]

/-- One train strictly inside the occupancy window of one signal. -/
def trInside : List (String × Train) :=
  [("T1", { track := 0, position := 30, speed := 0, status := "On Time",
            priority := 1, lastUpdate := 0 })]

/-- The signal whose block the train of trInside occupies. -/
def sgInside : List (String × Signal) :=
  [("S1", { track := 0, position := 25, state := SigState.GREEN })]

/-- The entry that step 2 produces for the signal of sgInside. -/
def pInsideRed : String × Signal :=
  ("S1", { track := 0, position := 25, state := SigState.RED })

/-- The junction of the initial configuration: tracks 0 and 1, position 50. -/
def jJ1 : Junction := { tracks := [0, 1], position := 50 }

/-- Train TA of stCross as the advancement step leaves it (clear, so the
status is On Time and last_update is the tick timestamp 0). -/
def tACross : Train :=
  { track := 0, position := 45, speed := 0, status := "On Time",
    priority := 1, lastUpdate := 0 }

/-- A second cross-track contention state, for instantiating the junction
safety theorem: trains on tracks 0 and 1 of J1, both within 25 units, each
with a gating signal within 25 units on its own track. -/
def stCrossB : SystemState :=
  { trains := [("TC", { track := 0, position := 46, speed := 0,
                        status := "On Time", priority := 2, lastUpdate := 0 }),
               ("TD", { track := 1, position := 54, speed := 0,
                        status := "On Time", priority := 1, lastUpdate := 0 })],
    signals := [("S2", { track := 0, position := 40, state := SigState.GREEN }),
                ("S4", { track := 1, position := 60, state := SigState.GREEN })],
    tracks := [(0, 100), (1, 100)],
    junctions := [("J1", jJ1)],
    aiLog := [], kpis := kpis0 }

/-- A train two units short of a RED signal, with the next signal far away:
the blocked-train scenario. -/
def stBlocked : SystemState :=
  { trains := [("T1", { track := 0, position := 22, speed := 80,
                        status := "On Time", priority := 1, lastUpdate := 0 })],
    signals := [("S1", { track := 0, position := 25, state := SigState.RED }),
                ("S2", { track := 0, position := 75, state := SigState.GREEN })],
    tracks := [(0, 100)],
    junctions := [("J1", { tracks := [0, 1], position := 50 })],
    aiLog := [], kpis := kpis0 }

end Backend

namespace Backend

theorem dropLast_cons_of_ne_nil {α : Type} (a : α) {l : List α} (h : l ≠ []) :
    (a :: l).dropLast = a :: l.dropLast := by
  cases l with
  | nil => exact absurd rfl h
  | cons b t => rfl

/-- C7: log_ai_decision keeps the Decision Log at no more than 100 entries,
puts the new entry at the head, and when the log is already at capacity it
evicts exactly the oldest (tail) entry. -/
theorem log_capacity (now : ℚ) (level message : String) (log : List LogEntry)
    (h : log.length ≤ 100) :
    (log_ai_decision now level message log).length ≤ 100 ∧
    (log_ai_decision now level message log).head? =
      some { timestamp := now, level := level, message := message } ∧
    (log.length = 100 →
      log_ai_decision now level message log =
        { timestamp := now, level := level, message := message } :: log.dropLast) ∧
    (log.length < 100 →
      log_ai_decision now level message log =
        { timestamp := now, level := level, message := message } :: log) := by
  unfold log_ai_decision
  simp only []
  by_cases hfull : log.length = 100
  · have hne : log ≠ [] := by
      intro hnil; rw [hnil] at hfull; exact absurd hfull (by decide)
    have hcond : 100 < (({ timestamp := now, level := level, message := message } : LogEntry) :: log).length := by
      simp [List.length_cons, hfull]
    rw [if_pos hcond, dropLast_cons_of_ne_nil _ hne]
    refine ⟨?_, rfl, fun _ => rfl, fun hlt => absurd hfull (Nat.ne_of_lt hlt)⟩
    · simp [List.length_cons, List.length_dropLast, hfull]
  · have hlt : log.length < 100 := lt_of_le_of_ne h hfull
    have hcond : ¬ 100 < (({ timestamp := now, level := level, message := message } : LogEntry) :: log).length := by
      simp only [List.length_cons]; omega
    rw [if_neg hcond]
    exact ⟨by simp only [List.length_cons]; omega, rfl, fun heq => absurd heq hfull, fun _ => rfl⟩

/-- C7 witness: the empty log is within capacity and a record call on it
behaves as stated. -/
theorem log_capacity_witness :
    ([] : List LogEntry).length ≤ 100 ∧
    (log_ai_decision 7 "INFO" "hello" []).length ≤ 100 ∧
    (log_ai_decision 7 "INFO" "hello" []).head? =
      some { timestamp := 7, level := "INFO", message := "hello" } :=
  ⟨by decide, (log_capacity 7 "INFO" "hello" [] (by decide)).1,
    (log_capacity 7 "INFO" "hello" [] (by decide)).2.1⟩

/-- C9 counterexample: in the stated scenario (track length 100, position 97,
speed 360 units per hour, elapsed 1 second) the tick moves the train to
97.1, not to 98 as the claim asserts: the distance added is
360 x 1/3600 = 0.1. -/
theorem scenario97_counterexample :
    (tick 1 stScenario97).trains.lookup "T1" =
      some { track := 0, position := 971/10, speed := 360, status := "On Time",
             priority := 1, lastUpdate := 1, id := none } ∧
    (971/10 : ℚ) ≠ 98 := by
  decide

/-- C9 amended: the tick advances the position-97 train to exactly 97.1
(adding 360 x 1/3600 = 0.1 with exact arithmetic), and once the position
reaches or exceeds 100 (from 99.9 the same tick reaches exactly 100) the
tick wraps the position to 0 and records an INFO completion entry. -/
theorem scenario97_amended :
    (tick 1 stScenario97).trains.lookup "T1" =
      some { track := 0, position := 97 + 360 * ((1 : ℚ)/3600), speed := 360,
             status := "On Time", priority := 1, lastUpdate := 1, id := none } ∧
    (97 + 360 * ((1 : ℚ)/3600)) = 971/10 ∧
    (tick 1 stScenario999).trains.lookup "T1" =
      some { track := 0, position := 0, speed := 360, status := "On Time",
             priority := 1, lastUpdate := 1, id := none } ∧
    (tick 1 stScenario999).aiLog.head? =
      some { timestamp := 1, level := "INFO",
             message := "Train T1 has completed its journey on track 1." } := by
  decide

/-- C5: at the failing input stTie (two contending trains of equal priority
inserted as T9 then T1), the code crowns T9 - the first-inserted train -
although T1 is the lexically smaller identifier, so the arbitration depends
on dict insertion order, not on the identifier order the claim states. -/
theorem tie_break_follows_insertion_order :
    junctionWinner { tracks := [0, 1], position := 50 } (tick 0 stTie).trains =
      some ("T9", { track := 0, position := 40, speed := 0, status := "On Time",
                    priority := 1, lastUpdate := 0, id := none }) ∧
    ((tick 0 stTie).aiLog.head?.map LogEntry.message) =
      some "Conflict near Junction J1. Prioritizing T9." ∧
    "T1".data < "T9".data ∧
    (trainsNear { tracks := [0, 1], position := 50 } (tick 0 stTie).trains).length = 2 := by
  decide

/-- C8: the read-state operation mutates World State: on the initial
configuration it writes an id key into every live train record (the response
aliases the records), so the state after the call differs from the state
before it. -/
theorem snapshot_mutates_world_state :
    (get_system_state 0 (setup_initial_state 0)).2 ≠ setup_initial_state 0 ∧
    (get_system_state 0 (setup_initial_state 0)).2.trains.lookup "T123" =
      some { track := 0, position := 10, speed := 80, status := "On Time",
             priority := 1, lastUpdate := 0, id := some "T123" } ∧
    (setup_initial_state 0).trains.lookup "T123" =
      some { track := 0, position := 10, speed := 80, status := "On Time",
             priority := 1, lastUpdate := 0, id := none } := by
  decide

/-- C10: a scenario-evaluation request of the recognized kind track_closure
or new_train whose track_id is absent raises TypeError (from track_id + 1)
instead of returning a document, while an unrecognized event kind returns
the generic Unknown document. -/
theorem scenario_missing_track_id_errors (d : ScenarioRequest)
    (hkind : d.event_type = some "track_closure" ∨ d.event_type = some "new_train")
    (htid : d.track_id = none) :
    simulate_scenario d =
      Except.error "TypeError: unsupported operand types for +: NoneType and int" ∧
    ∀ d' : ScenarioRequest, d'.event_type ≠ some "delay" →
      d'.event_type ≠ some "track_closure" → d'.event_type ≠ some "new_train" →
      simulate_scenario d' =
        Except.ok { scenario := "Unknown", plan := [],
                    impact := "Analysis in progress..." } := by
  constructor
  · rcases hkind with hk | hk
    · have hne : d.event_type ≠ some "delay" := by rw [hk]; decide
      simp only [simulate_scenario, if_neg hne, if_pos hk, htid]
    · have hne : d.event_type ≠ some "delay" := by rw [hk]; decide
      have hne2 : d.event_type ≠ some "track_closure" := by rw [hk]; decide
      simp only [simulate_scenario, if_neg hne, if_neg hne2, if_pos hk, htid]
  · intro d' h1 h2 h3
    simp only [simulate_scenario, if_neg h1, if_neg h2, if_neg h3]

/-- C10 witness: a track_closure request with no track_id errors, and a
request of unrecognized kind gets the Unknown document. -/
theorem scenario_missing_track_id_errors_witness :
    simulate_scenario { event_type := some "track_closure" } =
      Except.error "TypeError: unsupported operand types for +: NoneType and int" ∧
    simulate_scenario { event_type := some "reroute" } =
      Except.ok { scenario := "Unknown", plan := [],
                  impact := "Analysis in progress..." } :=
  ⟨(scenario_missing_track_id_errors { event_type := some "track_closure" }
      (Or.inl rfl) rfl).1,
   (scenario_missing_track_id_errors { event_type := some "track_closure" }
      (Or.inl rfl) rfl).2 { event_type := some "reroute" }
      (by decide) (by decide) (by decide)⟩

theorem lookup_map_value (f : String → Train → Train) :
    ∀ (ts : List (String × Train)) (tid : String) (t : Train),
      ts.lookup tid = some t →
      (ts.map (fun p => (p.1, f p.1 p.2))).lookup tid = some (f tid t) := by
  intro ts
  induction ts with
  | nil => intro tid t h; simp [List.lookup] at h
  | cons p rest ih =>
    intro tid t h
    rcases p with ⟨k, v⟩
    simp only [List.lookup] at h
    simp only [List.map_cons, List.lookup]
    cases hbeq : (tid == k) with
    | true =>
      rw [hbeq] at h
      have hk : tid = k := eq_of_beq hbeq
      cases h
      subst hk
      rfl
    | false =>
      rw [hbeq] at h
      exact ih tid t h

theorem advanceTrain_fst (now : ℚ) (sigs : List (String × Signal))
    (lens : List (Nat × ℚ)) (tid : String) (t : Train) (log : List LogEntry) :
    (advanceTrain now sigs lens tid t log).1 =
      (advanceTrain now sigs lens tid t []).1 := by
  cases hb : findBlockingSignal sigs t <;>
    simp only [advanceTrain, hb] <;> split <;> rfl

theorem advanceTrains_fst (now : ℚ) (sigs : List (String × Signal))
    (lens : List (Nat × ℚ)) :
    ∀ (ts : List (String × Train)) (log : List LogEntry),
      (advanceTrains now sigs lens ts log).1 =
        ts.map (fun p => (p.1, (advanceTrain now sigs lens p.1 p.2 []).1)) := by
  intro ts
  induction ts with
  | nil => intro log; rfl
  | cons p rest ih =>
    intro log
    rcases p with ⟨tid, t⟩
    simp only [advanceTrains, List.map_cons]
    rw [advanceTrain_fst, ih]

theorem tick_trains (now : ℚ) (st : SystemState) :
    (tick now st).trains =
      (advanceTrains now st.signals st.tracks st.trains st.aiLog).1 := rfl

theorem tick_trains_keys (now : ℚ) (st : SystemState) :
    (tick now st).trains.map Prod.fst = st.trains.map Prod.fst := by
  rw [tick_trains, advanceTrains_fst, List.map_map]
  rfl

theorem advanceTrain_blocked (now : ℚ) (sigs : List (String × Signal))
    (lens : List (Nat × ℚ)) (tid : String) (t : Train) (sid : String)
    (log : List LogEntry)
    (hb : findBlockingSignal sigs t = some sid)
    (hlen : ¬ trackLen lens t.track ≤ t.position) :
    advanceTrain now sigs lens tid t log =
      ({ t with status := "Waiting at signal " ++ sid, lastUpdate := now },
       log) := by
  simp only [advanceTrain, hb]
  rw [if_neg]
  exact hlen

theorem advanceTrain_clear_no_wrap (now : ℚ) (sigs : List (String × Signal))
    (lens : List (Nat × ℚ)) (tid : String) (t : Train) (log : List LogEntry)
    (hb : findBlockingSignal sigs t = none)
    (hlen : ¬ trackLen lens t.track ≤
        t.position + t.speed * ((now - t.lastUpdate) / 3600)) :
    advanceTrain now sigs lens tid t log =
      ({ t with
          position := t.position + t.speed * ((now - t.lastUpdate) / 3600),
          status := "On Time", lastUpdate := now }, log) := by
  simp only [advanceTrain, hb]
  rw [if_neg]
  exact hlen

theorem advanceTrain_clear_wrap (now : ℚ) (sigs : List (String × Signal))
    (lens : List (Nat × ℚ)) (tid : String) (t : Train) (log : List LogEntry)
    (hb : findBlockingSignal sigs t = none)
    (hlen : trackLen lens t.track ≤
        t.position + t.speed * ((now - t.lastUpdate) / 3600)) :
    advanceTrain now sigs lens tid t log =
      ({ t with position := 0, status := "On Time", lastUpdate := now },
       log_ai_decision now "INFO"
         ("Train " ++ tid ++ " has completed its journey on track " ++
           toString (t.track + 1) ++ ".") log) := by
  simp only [advanceTrain, hb]
  rw [if_pos]
  exact hlen

/-- C2: a train whose position lies in [0, track length) before a tick again
has its position in [0, track length) after the tick; moreover a blocked
train keeps its exact position, and a clear train that would reach or pass
the track length has its position wrapped to 0 (the tick also records the
INFO completion entry then, as the amended position-97 scenario theorem
evaluates concretely).  Nonnegative speed and a clock that has not run
backwards are the standing assumptions of the data model. -/
theorem tick_position_invariant (now : ℚ) (st : SystemState) (tid : String)
    (t : Train) (L : ℚ)
    (hlk : st.trains.lookup tid = some t)
    (hL : st.tracks.lookup t.track = some L)
    (h0 : 0 ≤ t.position) (h1 : t.position < L)
    (hsp : 0 ≤ t.speed) (hcl : t.lastUpdate ≤ now) :
    ∃ t', (tick now st).trains.lookup tid = some t' ∧
      0 ≤ t'.position ∧ t'.position < L ∧
      (findBlockingSignal st.signals t ≠ none → t'.position = t.position) ∧
      (findBlockingSignal st.signals t = none ∧
          L ≤ t.position + t.speed * ((now - t.lastUpdate) / 3600) →
        t'.position = 0) := by
  have htl : trackLen st.tracks t.track = L := by
    rw [trackLen, hL]; rfl
  have hlk' : (tick now st).trains.lookup tid =
      some ((advanceTrain now st.signals st.tracks tid t []).1) := by
    rw [tick_trains, advanceTrains_fst]
    exact lookup_map_value
      (fun a b => (advanceTrain now st.signals st.tracks a b []).1)
      st.trains tid t hlk
  refine ⟨(advanceTrain now st.signals st.tracks tid t []).1, hlk', ?_⟩
  cases hb : findBlockingSignal st.signals t with
  | some sid =>
    have hr := advanceTrain_blocked now st.signals st.tracks tid t sid []
      hb (by rw [htl]; exact not_le.2 h1)
    rw [hr]
    exact ⟨h0, h1, fun _ => rfl, fun hc => Option.noConfusion hc.1⟩
  | none =>
    have hd : 0 ≤ t.speed * ((now - t.lastUpdate) / 3600) :=
      mul_nonneg hsp (div_nonneg (sub_nonneg.2 hcl) (by norm_num))
    by_cases hw : L ≤ t.position + t.speed * ((now - t.lastUpdate) / 3600)
    · have hr := advanceTrain_clear_wrap now st.signals st.tracks tid t []
        hb (by rw [htl]; exact hw)
      rw [hr]
      exact ⟨le_refl 0, lt_of_le_of_lt h0 h1,
        fun hc => absurd rfl hc, fun _ => rfl⟩
    · have hr := advanceTrain_clear_no_wrap now st.signals st.tracks tid t []
        hb (by rw [htl]; exact hw)
      rw [hr]
      exact ⟨le_trans h0 (le_add_of_nonneg_right hd), not_le.1 hw,
        fun hc => absurd rfl hc, fun hc => absurd hc.2 hw⟩

/-- C2 witness: train T123 of the initial configuration, one second into the
simulation. -/
theorem tick_position_invariant_witness :
    ∃ t', (tick 1 (setup_initial_state 0)).trains.lookup "T123" = some t' ∧
      0 ≤ t'.position ∧ t'.position < 100 ∧
      (findBlockingSignal (setup_initial_state 0).signals
          { track := 0, position := 10, speed := 80, status := "On Time",
            priority := 1, lastUpdate := 0 } ≠ none →
        t'.position = 10) ∧
      (findBlockingSignal (setup_initial_state 0).signals
          { track := 0, position := 10, speed := 80, status := "On Time",
            priority := 1, lastUpdate := 0 } = none ∧
          100 ≤ 10 + 80 * (((1 : ℚ) - 0) / 3600) →
        t'.position = 0) :=
  tick_position_invariant 1 (setup_initial_state 0) "T123"
    { track := 0, position := 10, speed := 80, status := "On Time",
      priority := 1, lastUpdate := 0 } 100
    (by decide) (by decide) (by decide) (by decide) (by decide) (by decide)

/-- C3 counterexample: with one train standing exactly at the signal
position, step 2 turns the signal GREEN although the train lies in the
half-open window [position, position + 20) the claim uses: the code tests
the open window (position, position + 20). -/
theorem occupancy_boundary_counterexample :
    (step2 0 trBoundary sgBoundary []).1.lookup "S1" =
      some { track := 0, position := 25, state := SigState.GREEN } ∧
    (∃ c ∈ trBoundary, c.2.track = 0 ∧ (25 : ℚ) ≤ c.2.position ∧
      c.2.position < 25 + 20) := by
  decide

theorem findOccupyingTrain_eq_none_iff (trains : List (String × Train))
    (s : Signal) :
    findOccupyingTrain trains s = none ↔
      ∀ c ∈ trains, ¬(c.2.track = s.track ∧ s.position < c.2.position ∧
        c.2.position < s.position + 20) := by
  induction trains with
  | nil => simp [findOccupyingTrain]
  | cons c rest ih =>
    rcases c with ⟨tid, t⟩
    simp only [findOccupyingTrain]
    by_cases hc : t.track = s.track ∧ s.position < t.position ∧
        t.position < s.position + 20
    · rw [if_pos hc]
      simp only [List.mem_cons]
      constructor
      · intro h; exact Option.noConfusion h
      · intro h; exact absurd hc (h (tid, t) (Or.inl rfl))
    · rw [if_neg hc]
      rw [ih]
      constructor
      · intro h c hmem
        rcases List.mem_cons.1 hmem with rfl | hmem2
        · exact hc
        · exact h c hmem2
      · intro h c hmem
        exact h c (List.mem_cons.2 (Or.inr hmem))

/-- C3 amended: after the signal-recomputation step a signal is GREEN if and
only if no train on its track has a position in the OPEN window
(signal.position, signal.position + 20); a train standing exactly at the
signal position does not count as occupying the block. -/
theorem step2_green_iff (now : ℚ) (trains : List (String × Train))
    (signals : List (String × Signal)) (log : List LogEntry) :
    ∀ p ∈ (step2 now trains signals log).1,
      p.2.state = SigState.GREEN ↔
        ∀ c ∈ trains, ¬(c.2.track = p.2.track ∧ p.2.position < c.2.position ∧
          c.2.position < p.2.position + 20) := by
  induction signals generalizing log with
  | nil =>
    intro p hp
    simp [step2, setAllRed, decideSignals] at hp
  | cons x xs ih =>
    intro p hp
    rcases x with ⟨sid, s⟩
    simp only [step2, setAllRed, List.map_cons, decideSignals] at hp
    cases hocc : findOccupyingTrain trains { s with state := SigState.RED } with
    | some tid =>
      rw [hocc] at hp
      rcases List.mem_cons.1 hp with rfl | hp2
      · constructor
        · intro h; simp at h
        · intro h
          have := (findOccupyingTrain_eq_none_iff trains
            { s with state := SigState.RED }).2 h
          rw [hocc] at this
          exact Option.noConfusion this
      · exact ih _ p hp2
    | none =>
      rw [hocc] at hp
      rcases List.mem_cons.1 hp with rfl | hp2
      · constructor
        · intro _
          exact (findOccupyingTrain_eq_none_iff trains
            { s with state := SigState.RED }).1 hocc
        · intro _; rfl
      · exact ih _ p hp2

/-- C3 amended witness: the single signal of sgInside with the train of
trInside strictly inside its window. -/
theorem step2_green_iff_witness :
    (pInsideRed.2.state = SigState.GREEN ↔
      ∀ c ∈ trInside,
        ¬(c.2.track = pInsideRed.2.track ∧
          pInsideRed.2.position < c.2.position ∧
          c.2.position < pInsideRed.2.position + 20)) :=
  step2_green_iff 0 trInside sgInside [] pInsideRed (by decide)

theorem findBlockingSignal_unique :
    ∀ (signals : List (String × Signal)) (t : Train) (sid : String) (s : Signal),
      (sid, s) ∈ signals → s.track = t.track → t.position < s.position →
      s.position - t.position < 5 → s.state ≠ SigState.GREEN →
      (∀ q ∈ signals, q.2.track = t.track → t.position < q.2.position →
        q.2.position - t.position < 5 → q = (sid, s)) →
      findBlockingSignal signals t = some sid := by
  intro signals
  induction signals with
  | nil => intro t sid s hmem; exact absurd hmem (List.not_mem_nil _)
  | cons x rest ih =>
    intro t sid s hmem htrk hahead hnear hng huniq
    rcases x with ⟨qid, q⟩
    simp only [findBlockingSignal]
    by_cases hc : q.track = t.track ∧ t.position < q.position ∧
        q.position - t.position < 5 ∧ q.state ≠ SigState.GREEN
    · rw [if_pos hc]
      have heads := huniq (qid, q) (List.mem_cons.2 (Or.inl rfl)) hc.1 hc.2.1 hc.2.2.1
      injection heads with h1 h2
      rw [h1]
    · rw [if_neg hc]
      rcases List.mem_cons.1 hmem with heq | hmem2
      · injection heq with h1 h2
        subst h1; subst h2
        exact absurd ⟨htrk, hahead, hnear, hng⟩ hc
      · exact ih t sid s hmem2 htrk hahead hnear hng
          (fun q' hq' => huniq q' (List.mem_cons.2 (Or.inr hq')))

/-- C6: a train whose unique forward signal within 5 units on its own track
is RED at the start of the advancement step keeps its position, gets status
"Waiting at signal {id}" naming that signal, and still has its last-update
timestamp refreshed.  The uniqueness hypothesis holds throughout this
program, whose signals sit 50 units apart on every track, and under it the
named signal is exactly the nearest forward one the claim speaks of. -/
theorem blocked_train_waits (now : ℚ) (st : SystemState) (tid sid : String)
    (t : Train) (s : Signal) (L : ℚ)
    (hlk : st.trains.lookup tid = some t)
    (hmem : (sid, s) ∈ st.signals)
    (htrk : s.track = t.track)
    (hahead : t.position < s.position)
    (hnear : s.position - t.position < 5)
    (hred : s.state = SigState.RED)
    (huniq : ∀ q ∈ st.signals, q.2.track = t.track → t.position < q.2.position →
      q.2.position - t.position < 5 → q = (sid, s))
    (hL : st.tracks.lookup t.track = some L)
    (h1 : t.position < L) :
    (tick now st).trains.lookup tid =
      some { t with status := "Waiting at signal " ++ sid, lastUpdate := now } := by
  have hb : findBlockingSignal st.signals t = some sid :=
    findBlockingSignal_unique st.signals t sid s hmem htrk hahead hnear
      (by rw [hred]; decide) huniq
  have htl : trackLen st.tracks t.track = L := by rw [trackLen, hL]; rfl
  have hr := advanceTrain_blocked now st.signals st.tracks tid t sid []
    hb (by rw [htl]; exact not_le.2 h1)
  have hlk' : (tick now st).trains.lookup tid =
      some ((advanceTrain now st.signals st.tracks tid t []).1) := by
    rw [tick_trains, advanceTrains_fst]
    exact lookup_map_value
      (fun a b => (advanceTrain now st.signals st.tracks a b []).1)
      st.trains tid t hlk
  rw [hlk', hr]

/-- C6 witness: the train of stBlocked, two units short of RED signal S1. -/
theorem blocked_train_waits_witness :
    (tick 3 stBlocked).trains.lookup "T1" =
      some { track := 0, position := 22, speed := 80,
             status := "Waiting at signal S1", priority := 1, lastUpdate := 3,
             id := none } :=
  blocked_train_waits 3 stBlocked "T1" "S1"
    { track := 0, position := 22, speed := 80, status := "On Time",
      priority := 1, lastUpdate := 0 }
    { track := 0, position := 25, state := SigState.RED } 100
    (by decide) (by decide) (by decide) (by decide) (by decide) (by decide)
    (by decide) (by decide) (by decide)

theorem orderedInsertP_perm (a : String × Train) :
    ∀ l : List (String × Train), (orderedInsertP a l).Perm (a :: l) := by
  intro l
  induction l with
  | nil => exact List.Perm.refl _
  | cons b t ih =>
    simp only [orderedInsertP]
    by_cases h : a.2.priority ≤ b.2.priority
    · rw [if_pos h]
    · rw [if_neg h]
      exact (List.Perm.cons b ih).trans (List.Perm.swap a b t)

theorem sortByPriority_perm :
    ∀ l : List (String × Train), (sortByPriority l).Perm l := by
  intro l
  induction l with
  | nil => exact List.Perm.refl _
  | cons a t ih =>
    exact (orderedInsertP_perm a (sortByPriority t)).trans (List.Perm.cons a ih)

theorem overrideForTrain_fst (now : ℚ) (j : Junction) (wid cid : String)
    (ctr : Nat) :
    ∀ (signals : List (String × Signal)) (log : List LogEntry),
      (overrideForTrain now j wid cid ctr signals log).1 =
        signals.map (fun p => (p.1, overrideSig j wid cid ctr p.2)) := by
  intro signals
  induction signals with
  | nil => intro log; rfl
  | cons x rest ih =>
    intro log
    rcases x with ⟨sid, s⟩
    by_cases hc : s.track = ctr ∧ |s.position - j.position| < 25
    · simp only [overrideForTrain, List.map_cons, if_pos hc, ih]
    · simp only [overrideForTrain, List.map_cons, if_neg hc, ih,
        overrideSig]

theorem applyOverrides_fst (now : ℚ) (j : Junction) (wid : String) :
    ∀ (cs : List (String × Train)) (signals : List (String × Signal))
      (log : List LogEntry),
      (applyOverrides now j wid cs signals log).1 =
        signals.map (fun p =>
          (p.1, cs.foldl (fun s c => overrideSig j wid c.1 c.2.track s) p.2)) := by
  intro cs
  induction cs with
  | nil =>
    intro signals log
    simp [applyOverrides]
  | cons c cs ih =>
    intro signals log
    rcases c with ⟨tid, t⟩
    simp only [applyOverrides, List.foldl_cons]
    rw [ih, overrideForTrain_fst, List.map_map]
    rfl

theorem overrideSig_track (j : Junction) (wid cid : String) (ctr : Nat)
    (s : Signal) : (overrideSig j wid cid ctr s).track = s.track := by
  unfold overrideSig; split <;> rfl

theorem overrideSig_position (j : Junction) (wid cid : String) (ctr : Nat)
    (s : Signal) : (overrideSig j wid cid ctr s).position = s.position := by
  unfold overrideSig; split <;> rfl

theorem foldl_override_track (j : Junction) (wid : String) :
    ∀ (cs : List (String × Train)) (s : Signal),
      (cs.foldl (fun s c => overrideSig j wid c.1 c.2.track s) s).track =
        s.track := by
  intro cs
  induction cs with
  | nil => intro s; rfl
  | cons c cs ih =>
    intro s
    simp only [List.foldl_cons]
    rw [ih, overrideSig_track]

theorem foldl_override_position (j : Junction) (wid : String) :
    ∀ (cs : List (String × Train)) (s : Signal),
      (cs.foldl (fun s c => overrideSig j wid c.1 c.2.track s) s).position =
        s.position := by
  intro cs
  induction cs with
  | nil => intro s; rfl
  | cons c cs ih =>
    intro s
    simp only [List.foldl_cons]
    rw [ih, overrideSig_position]

theorem foldl_override_red (j : Junction) (wid : String) :
    ∀ (cs : List (String × Train)) (s : Signal),
      (∀ c ∈ cs, s.track = c.2.track → |s.position - j.position| < 25 →
        c.1 ≠ wid) →
      ((∃ c ∈ cs, s.track = c.2.track ∧ |s.position - j.position| < 25) ∨
        s.state = SigState.RED) →
      (cs.foldl (fun s c => overrideSig j wid c.1 c.2.track s) s).state =
        SigState.RED := by
  intro cs
  induction cs with
  | nil =>
    intro s _ h2
    rcases h2 with ⟨c, hc, _⟩ | h2
    · exact absurd hc (List.not_mem_nil c)
    · exact h2
  | cons c cs ih =>
    intro s h1 h2
    simp only [List.foldl_cons]
    have htr : (overrideSig j wid c.1 c.2.track s).track = s.track :=
      overrideSig_track j wid c.1 c.2.track s
    have hps : (overrideSig j wid c.1 c.2.track s).position = s.position :=
      overrideSig_position j wid c.1 c.2.track s
    apply ih
    · intro c' hc' ht hr
      rw [htr] at ht
      rw [hps] at hr
      exact h1 c' (List.mem_cons.2 (Or.inr hc')) ht hr
    · by_cases hc : s.track = c.2.track ∧ |s.position - j.position| < 25
      · right
        have hne : c.1 ≠ wid := h1 c (List.mem_cons.2 (Or.inl rfl)) hc.1 hc.2
        unfold overrideSig
        rw [if_pos hc, if_neg hne]
      · rcases h2 with ⟨c0, hc0, hcond⟩ | hred
        · rcases List.mem_cons.1 hc0 with rfl | hc0r
          · exact absurd hcond hc
          · left
            exact ⟨c0, hc0r, by rw [htr]; exact hcond.1,
              by rw [hps]; exact hcond.2⟩
        · right
          unfold overrideSig
          rw [if_neg hc]
          exact hred

theorem foldl_override_unchanged (j : Junction) (wid : String) :
    ∀ (cs : List (String × Train)) (s : Signal),
      (∀ c ∈ cs, ¬(s.track = c.2.track ∧ |s.position - j.position| < 25)) →
      cs.foldl (fun s c => overrideSig j wid c.1 c.2.track s) s = s := by
  intro cs
  induction cs with
  | nil => intro s _; rfl
  | cons c cs ih =>
    intro s h
    simp only [List.foldl_cons]
    have hs : overrideSig j wid c.1 c.2.track s = s := by
      unfold overrideSig
      rw [if_neg (h c (List.mem_cons.2 (Or.inl rfl)))]
    rw [hs]
    exact ih s (fun c' hc' => h c' (List.mem_cons.2 (Or.inr hc')))

theorem resolveJunction_fire (now : ℚ) (trains : List (String × Train))
    (signals : List (String × Signal)) (j : Junction) (log : List LogEntry)
    (wid : String) (wt : Train) (rest : List (String × Train))
    (hlen : 1 < (trainsNear j trains).length)
    (hsorted : sortByPriority (trainsNear j trains) = (wid, wt) :: rest) :
    (resolveJunction now trains signals (some j) log).1 =
      signals.map (fun p =>
        (p.1, ((wid, wt) :: rest).foldl
          (fun s c => overrideSig j wid c.1 c.2.track s) p.2)) := by
  simp only [resolveJunction]
  rw [if_pos hlen, hsorted]
  exact applyOverrides_fst now j wid ((wid, wt) :: rest) signals _

theorem one_lt_length_of_mem_ne {α : Type} {a b : α} {l : List α}
    (ha : a ∈ l) (hb : b ∈ l) (hab : a ≠ b) : 1 < l.length := by
  cases l with
  | nil => exact absurd ha (List.not_mem_nil a)
  | cons x t =>
    cases t with
    | nil =>
      have ha' := List.mem_singleton.1 ha
      have hb' := List.mem_singleton.1 hb
      exact absurd (ha'.trans hb'.symm) hab
    | cons y u =>
      simp only [List.length_cons]
      omega

theorem tick_signals_eq (now : ℚ) (st : SystemState) :
    (tick now st).signals =
      (resolveJunction now (tick now st).trains
        (step2 now (tick now st).trains st.signals
          (advanceTrains now st.signals st.tracks st.trains st.aiLog).2).1
        (st.junctions.lookup "J1")
        (step2 now (tick now st).trains st.signals
          (advanceTrains now st.signals st.tracks st.trains st.aiLog).2).2).1 :=
  rfl

theorem winner_sorted_cons (now : ℚ) (st : SystemState) (j : Junction)
    (wid : String) (wt : Train)
    (hw : junctionWinner j (tick now st).trains = some (wid, wt)) :
    ∃ rest, sortByPriority (trainsNear j (tick now st).trains) =
      (wid, wt) :: rest := by
  rw [junctionWinner] at hw
  cases hs : sortByPriority (trainsNear j (tick now st).trains) with
  | nil => rw [hs] at hw; exact Option.noConfusion hw
  | cons w0 rest =>
    rw [hs] at hw
    simp only [List.head?_cons, Option.some.injEq] at hw
    exact ⟨rest, by rw [hw]⟩

theorem winner_not_in_rest (now : ℚ) (st : SystemState) (j : Junction)
    (wid : String) (wt : Train) (rest : List (String × Train))
    (hkeys : (st.trains.map Prod.fst).Nodup)
    (hs : sortByPriority (trainsNear j (tick now st).trains) =
      (wid, wt) :: rest) :
    wid ∉ rest.map Prod.fst := by
  have hkeys' : ((tick now st).trains.map Prod.fst).Nodup := by
    rw [tick_trains_keys]; exact hkeys
  have hsub : List.Sublist ((trainsNear j (tick now st).trains).map Prod.fst)
      ((tick now st).trains.map Prod.fst) :=
    List.Sublist.map Prod.fst (List.filter_sublist _)
  have hnear : ((trainsNear j (tick now st).trains).map Prod.fst).Nodup :=
    List.Nodup.sublist hsub hkeys'
  have hperm : ((sortByPriority (trainsNear j (tick now st).trains)).map
      Prod.fst).Perm ((trainsNear j (tick now st).trains).map Prod.fst) :=
    (sortByPriority_perm _).map Prod.fst
  have hsorted : ((sortByPriority (trainsNear j (tick now st).trains)).map
      Prod.fst).Nodup := (List.Perm.nodup_iff hperm).2 hnear
  rw [hs, List.map_cons] at hsorted
  exact (List.nodup_cons.1 hsorted).1

theorem contender_in_rest (now : ℚ) (st : SystemState) (j : Junction)
    (wid : String) (wt : Train) (rest : List (String × Train))
    (c : String × Train)
    (hs : sortByPriority (trainsNear j (tick now st).trains) =
      (wid, wt) :: rest)
    (hc : c ∈ trainsNear j (tick now st).trains)
    (hne : c ≠ (wid, wt)) : c ∈ rest := by
  have hmem : c ∈ sortByPriority (trainsNear j (tick now st).trains) :=
    (sortByPriority_perm _).mem_iff.2 hc
  rw [hs] at hmem
  rcases List.mem_cons.1 hmem with heq | hmem2
  · exact absurd heq hne
  · exact hmem2

/-- Core safety step: after a tick in which the arbitration fired with
winner (wid, wt), every signal within 25 units of junction J1 on the track
of a contender whose identifier is not the winner identifier is RED. -/
theorem signal_red_of_loser (now : ℚ) (st : SystemState) (j : Junction)
    (wid : String) (wt : Train) (q : String × Signal) (c : String × Train)
    (hkeys : (st.trains.map Prod.fst).Nodup)
    (hJ : st.junctions = [("J1", j)])
    (hfire : 1 < (trainsNear j (tick now st).trains).length)
    (hw : junctionWinner j (tick now st).trains = some (wid, wt))
    (hc : c ∈ trainsNear j (tick now st).trains)
    (hcw : c.1 ≠ wid)
    (hq : q ∈ (tick now st).signals)
    (hqt : q.2.track = c.2.track)
    (hqr : |q.2.position - j.position| < 25) :
    q.2.state = SigState.RED := by
  obtain ⟨rest, hs⟩ := winner_sorted_cons now st j wid wt hw
  have hlook : st.junctions.lookup "J1" = some j := by rw [hJ]; rfl
  have hsig := tick_signals_eq now st
  rw [hlook, resolveJunction_fire now _ _ j _ wid wt rest hfire hs] at hsig
  rw [hsig] at hq
  obtain ⟨q0, hq0, hq1⟩ := List.mem_map.1 hq
  have hcrest : c ∈ rest := contender_in_rest now st j wid wt rest c hs hc
    (fun h => hcw (by rw [h]))
  have hwrest := winner_not_in_rest now st j wid wt rest hkeys hs
  have hq2 := congrArg Prod.snd hq1
  simp only at hq2
  have htr : q.2.track = q0.2.track := by
    rw [← hq2, List.foldl_cons, foldl_override_track, overrideSig_track]
  have hps : q.2.position = q0.2.position := by
    rw [← hq2, List.foldl_cons, foldl_override_position, overrideSig_position]
  have hred : ((((wid, wt) :: rest).foldl
      (fun s c => overrideSig j wid c.1 c.2.track s) q0.2)).state =
      SigState.RED := by
    rw [List.foldl_cons]
    apply foldl_override_red
    · intro c' hc' _ _
      intro hcw'
      exact hwrest (hcw' ▸ List.mem_map_of_mem Prod.fst hc')
    · left
      refine ⟨c, hcrest, ?_, ?_⟩
      · rw [overrideSig_track, ← htr]; exact hqt
      · rw [overrideSig_position, ← hps]; exact hqr
  rw [← hq2]
  exact hred

/-- C4 counterexample: at stSharedTrack the arbitration fires, TA wins, and
signal S1 lies within 25 units of junction J1 on the winning train track,
yet after the tick S1 is RED: the loop pass for the same-track loser TB
overwrites the GREEN the winner pass had just set. -/
theorem winner_signal_overwritten_counterexample :
    1 < (trainsNear jJ1 (tick 0 stSharedTrack).trains).length ∧
    junctionWinner jJ1 (tick 0 stSharedTrack).trains =
      some ("TA", { track := 0, position := 40, speed := 0, status := "On Time",
                    priority := 1, lastUpdate := 0, id := none }) ∧
    (tick 0 stSharedTrack).signals.lookup "S1" =
      some { track := 0, position := 45, state := SigState.RED } := by
  decide

/-- C4 amended: when junction arbitration fires with winner (wid, wt), every
signal within 25 units of the junction on the track of a contender whose
identifier is not wid is RED after the tick regardless of step 2, and every
signal within 25 units on the winner track is GREEN provided no other
contender shares the winner track - without that proviso the loop pass of a
same-track loser overwrites those signals to RED, as the counterexample
shows. -/
theorem junction_arbitration_override (now : ℚ) (st : SystemState)
    (j : Junction) (wid : String) (wt : Train)
    (hkeys : (st.trains.map Prod.fst).Nodup)
    (hJ : st.junctions = [("J1", j)])
    (hfire : 1 < (trainsNear j (tick now st).trains).length)
    (hw : junctionWinner j (tick now st).trains = some (wid, wt)) :
    (∀ q ∈ (tick now st).signals, ∀ c ∈ trainsNear j (tick now st).trains,
      c.1 ≠ wid → q.2.track = c.2.track → |q.2.position - j.position| < 25 →
      q.2.state = SigState.RED) ∧
    ((∀ c ∈ trainsNear j (tick now st).trains, c ≠ (wid, wt) →
        c.2.track ≠ wt.track) →
      ∀ q ∈ (tick now st).signals, q.2.track = wt.track →
      |q.2.position - j.position| < 25 → q.2.state = SigState.GREEN) := by
  constructor
  · intro q hq c hc hcw hqt hqr
    exact signal_red_of_loser now st j wid wt q c hkeys hJ hfire hw hc hcw
      hq hqt hqr
  · intro hcave q hq hqt hqr
    obtain ⟨rest, hs⟩ := winner_sorted_cons now st j wid wt hw
    have hlook : st.junctions.lookup "J1" = some j := by rw [hJ]; rfl
    have hsig := tick_signals_eq now st
    rw [hlook, resolveJunction_fire now _ _ j _ wid wt rest hfire hs] at hsig
    rw [hsig] at hq
    obtain ⟨q0, hq0, hq1⟩ := List.mem_map.1 hq
    have hq2 := congrArg Prod.snd hq1
    simp only at hq2
    have htr : q.2.track = q0.2.track := by
      rw [← hq2, List.foldl_cons, foldl_override_track, overrideSig_track]
    have hps : q.2.position = q0.2.position := by
      rw [← hq2, List.foldl_cons, foldl_override_position, overrideSig_position]
    have hcond : q0.2.track = wt.track ∧ |q0.2.position - j.position| < 25 :=
      ⟨by rw [← htr]; exact hqt, by rw [← hps]; exact hqr⟩
    have hhead : overrideSig j wid wid wt.track q0.2 =
        { q0.2 with state := SigState.GREEN } := by
      unfold overrideSig
      rw [if_pos hcond, if_pos rfl]
    have hwrest := winner_not_in_rest now st j wid wt rest hkeys hs
    have hrest : ∀ c ∈ rest,
        ¬(q0.2.track = c.2.track ∧ |q0.2.position - j.position| < 25) := by
      intro c hcr hcontr
      have hcnear : c ∈ trainsNear j (tick now st).trains :=
        (sortByPriority_perm _).mem_iff.1 (hs ▸ List.mem_cons.2 (Or.inr hcr))
      have hcneq : c ≠ (wid, wt) := by
        intro h
        apply hwrest
        have hmap := List.mem_map_of_mem Prod.fst hcr
        rw [h] at hmap
        exact hmap
      exact hcave c hcnear hcneq (hcontr.1.symm.trans hcond.1)
    have hfold : ((wid, wt) :: rest).foldl
        (fun s c => overrideSig j wid c.1 c.2.track s) q0.2 =
        { q0.2 with state := SigState.GREEN } := by
      rw [List.foldl_cons, hhead]
      exact foldl_override_unchanged j wid rest _ hrest
    rw [← hq2, hfold]

/-- C4 witness: at stCross the arbitration fires with winner TA on track 0,
signal S4 within 25 units on loser track 1 is a member of the post-tick
signal list, and the theorem forces its RED state. -/
theorem junction_arbitration_override_witness :
    ("S4", { track := 1, position := 60, state := SigState.RED }) ∈
      (tick 0 stCross).signals ∧
    (("S4", ({ track := 1, position := 60, state := SigState.RED } : Signal)) :
      String × Signal).2.state = SigState.RED :=
  ⟨by decide,
   (junction_arbitration_override 0 stCross jJ1 "TA" tACross (by decide) rfl
      (by decide) (by decide)).1
     ("S4", { track := 1, position := 60, state := SigState.RED }) (by decide)
     ("TB", { track := 1, position := 55, speed := 0, status := "On Time",
              priority := 2, lastUpdate := 0 })
     (by decide) (by decide) (by decide) (by decide)⟩

/-- C1: after a full tick no two conflicting movements hold a simultaneous
go signal: with the junction store holding exactly junction J1 (as in this
program), there are never two trains on two different tracks of that
junction, both within its 25-unit radius, that each have a GREEN signal
within that radius on their respective tracks. -/
theorem no_conflicting_go (now : ℚ) (st : SystemState) (j : Junction)
    (hkeys : (st.trains.map Prod.fst).Nodup)
    (hJ : st.junctions = [("J1", j)]) :
    ∀ p1 ∈ (tick now st).trains, ∀ p2 ∈ (tick now st).trains,
      p1.2.track ∈ j.tracks → p2.2.track ∈ j.tracks →
      p1.2.track ≠ p2.2.track →
      |p1.2.position - j.position| < 25 → |p2.2.position - j.position| < 25 →
      ¬(gatedGreen (tick now st).signals j p1.2.track ∧
        gatedGreen (tick now st).signals j p2.2.track) := by
  intro p1 hp1 p2 hp2 ht1 ht2 hne hr1 hr2 hG
  have hn1 : p1 ∈ trainsNear j (tick now st).trains :=
    List.mem_filter.2 ⟨hp1, decide_eq_true ⟨ht1, hr1⟩⟩
  have hn2 : p2 ∈ trainsNear j (tick now st).trains :=
    List.mem_filter.2 ⟨hp2, decide_eq_true ⟨ht2, hr2⟩⟩
  have hp12 : p1 ≠ p2 := fun h => hne (by rw [h])
  have hfire : 1 < (trainsNear j (tick now st).trains).length :=
    one_lt_length_of_mem_ne hn1 hn2 hp12
  cases hwQ : junctionWinner j (tick now st).trains with
  | none =>
    rw [junctionWinner] at hwQ
    have hnil := List.head?_eq_none_iff.1 hwQ
    have hlen := (sortByPriority_perm (trainsNear j (tick now st).trains)).length_eq
    rw [hnil] at hlen
    rw [← hlen] at hfire
    exact absurd hfire (by decide)
  | some w =>
    rcases w with ⟨wid, wt⟩
    obtain ⟨rest, hs⟩ := winner_sorted_cons now st j wid wt hwQ
    by_cases hpw : p1 = (wid, wt)
    · have hp2w : p2 ≠ (wid, wt) := fun h => hp12 (hpw.trans h.symm)
      have hcw : p2.1 ≠ wid := by
        intro h
        have hin := contender_in_rest now st j wid wt rest p2 hs hn2 hp2w
        exact winner_not_in_rest now st j wid wt rest hkeys hs
          (h ▸ List.mem_map_of_mem Prod.fst hin)
      obtain ⟨q, hq, hqt, hqr, hqg⟩ := hG.2
      have hred := signal_red_of_loser now st j wid wt q p2 hkeys hJ hfire
        hwQ hn2 hcw hq hqt hqr
      rw [hqg] at hred
      exact SigState.noConfusion hred
    · have hcw : p1.1 ≠ wid := by
        intro h
        have hin := contender_in_rest now st j wid wt rest p1 hs hn1 hpw
        exact winner_not_in_rest now st j wid wt rest hkeys hs
          (h ▸ List.mem_map_of_mem Prod.fst hin)
      obtain ⟨q, hq, hqt, hqr, hqg⟩ := hG.1
      have hred := signal_red_of_loser now st j wid wt q p1 hkeys hJ hfire
        hwQ hn1 hcw hq hqt hqr
      rw [hqg] at hred
      exact SigState.noConfusion hred

/-- C1 witness: at stCrossB two trains contend on the two tracks of J1,
each with a gating signal inside the radius, and the safety property holds
for their two tracks. -/
theorem no_conflicting_go_witness :
    ¬(gatedGreen (tick 0 stCrossB).signals jJ1 0 ∧
      gatedGreen (tick 0 stCrossB).signals jJ1 1) :=
  no_conflicting_go 0 stCrossB jJ1 (by decide) rfl
    ("TC", { track := 0, position := 46, speed := 0, status := "On Time",
             priority := 2, lastUpdate := 0 }) (by decide)
    ("TD", { track := 1, position := 54, speed := 0, status := "On Time",
             priority := 1, lastUpdate := 0 }) (by decide)
    (by decide) (by decide) (by decide) (by decide) (by decide)

end Backend
